import Mathlib

/-!
# Loan profitability simulator: verified model

A shallow embedding in `ℚ` of the numeric engine of the loan profitability
simulator.  The repository holds two engine variants:

* the *simple* variant (first script of `+page.svelte`, duplicated in
  `part_000`): down payment invested, monthly payments added to the
  counterfactual investment, deferral months extend the loan
  (`totalLoanMonths = deferralMonths + numberOfPayments`);
* the *full* variant (second script of `+page.svelte`): principal invested up
  front, insurance and inflation tracked, deferral inside the loan term
  (`numberOfPayments = max 1 (totalLoanMonths - deferralMonths)`), a year-0
  baseline record, real (deflated) figures.

JavaScript numbers are modelled by `ℚ`; the month loops by structural
recursion (`compound`, `stateAfter`); `Math.max(0, x)` by `max 0 x`;
`findIndex`/`find` by `List.findIdx?`/`List.find?`; the `null` sentinel by
`Option`.  Year counts (`loanTermYears`, `deferralMonths`, `analysisYears`)
are modelled by `ℕ`, matching the integer ranges of the inputs.
-/

namespace LoanSim

/-- The update `balance *= (1 + r)` executed `k` times, mirroring the month loops of the
source (`for (let month = 0; month < deferralMonths; month++) balance *= (1 + monthlyRate)`
and the scenario loops). -/
def compound (r : ℚ) : ℕ → ℚ → ℚ
  | 0, b => b
  | k + 1, b => compound r k b * (1 + r)

/-- Raw inputs of the simple variant (`+page.svelte`, first script / `part_000`). -/
structure SimpleParams where
  loanAmount : ℚ
  interestRate : ℚ
  loanTermYears : ℕ
  downPayment : ℚ
  deferralMonths : ℕ
  /-- Flag for `deferralType === 'complete'` (capitalizing); `false` is the
  interest-only deferral (`'partial'` in the source). -/
  deferralComplete : Bool
  investmentRate : ℚ
  investmentVolatility : ℚ
  analysisYears : ℕ
deriving DecidableEq

namespace SimpleParams

/-- The reactive clamping block (lines 68–75 of the first script):
each `$:` clamp, with `downPayment` and `analysisYears` reading the already
clamped `loanAmount` and `loanTermYears`. -/
def clamp (p : SimpleParams) : SimpleParams where
  loanAmount := max 0 (min 10000000 p.loanAmount)
  downPayment := max 0 (min (max 0 (min 10000000 p.loanAmount)) p.downPayment)
  interestRate := max 0 (min 20 p.interestRate)
  loanTermYears := max 1 (min 40 p.loanTermYears)
  deferralMonths := min 60 p.deferralMonths
  deferralComplete := p.deferralComplete
  investmentRate := max 0 (min 30 p.investmentRate)
  investmentVolatility := max 0 (min 100 p.investmentVolatility)
  analysisYears := max (max 1 (min 40 p.loanTermYears)) (min 60 p.analysisYears)

/-- Source: `$: monthlyRate = interestRate / 100 / 12`. -/
def monthlyRate (p : SimpleParams) : ℚ := p.interestRate / 100 / 12

/-- Source: `$: principal = loanAmount - downPayment`. -/
def principal (p : SimpleParams) : ℚ := p.loanAmount - p.downPayment

/-- Source: `$: numberOfPayments = loanTermYears * 12`. -/
def numberOfPayments (p : SimpleParams) : ℕ := p.loanTermYears * 12

/-- Source: `$: principalAfterDeferral`: for complete deferral the balance is grown by
`(1 + monthlyRate)` once per deferral month; unchanged otherwise. -/
def principalAfterDeferral (p : SimpleParams) : ℚ :=
  if p.deferralComplete then compound (monthlyRate p) p.deferralMonths (principal p)
  else principal p

/-- Source: `$: monthlyPayment = principalAfterDeferral > 0 && monthlyRate > 0 ? …annuity… : 0`. -/
def monthlyPayment (p : SimpleParams) : ℚ :=
  if 0 < principalAfterDeferral p ∧ 0 < monthlyRate p then
    principalAfterDeferral p * (monthlyRate p * (1 + monthlyRate p) ^ numberOfPayments p) /
      ((1 + monthlyRate p) ^ numberOfPayments p - 1)
  else 0

/-- Source: `$: totalPayment = monthlyPayment * numberOfPayments`. -/
def totalPayment (p : SimpleParams) : ℚ := monthlyPayment p * numberOfPayments p

/-- Source: `$: totalInterest = totalPayment - principal`. -/
def totalInterest (p : SimpleParams) : ℚ := totalPayment p - principal p

/-- Source: `$: totalLoanMonths = deferralMonths + numberOfPayments`. -/
def totalLoanMonths (p : SimpleParams) : ℕ := p.deferralMonths + numberOfPayments p

end SimpleParams

/-- Running state of the simple variant's month loop. -/
structure SimState where
  investmentValue : ℚ
  loanBalance : ℚ
  totalPaid : ℚ
deriving DecidableEq

namespace SimpleParams

/-- Loop initialisation: `investmentValue = downPayment`, `loanBalance = principal`,
`totalPaid = downPayment`. -/
def initState (p : SimpleParams) : SimState :=
  { investmentValue := p.downPayment, loanBalance := principal p, totalPaid := p.downPayment }

/-- One iteration of the inner month loop, `m` being `totalMonthsElapsed` after
the increment (so `m ≥ 1`).  Mirrors lines 135–163 of the first script. -/
def monthStep (p : SimpleParams) (m : ℕ) (s : SimState) : SimState :=
  let iv := s.investmentValue * (1 + p.investmentRate / 100 / 12)
  if m ≤ p.deferralMonths then
    if p.deferralComplete then
      { investmentValue := iv, loanBalance := s.loanBalance * (1 + monthlyRate p),
        totalPaid := s.totalPaid }
    else
      { investmentValue := iv + s.loanBalance * monthlyRate p, loanBalance := s.loanBalance,
        totalPaid := s.totalPaid + s.loanBalance * monthlyRate p }
  else if m ≤ totalLoanMonths p then
    { investmentValue := iv + monthlyPayment p,
      loanBalance := max 0 (s.loanBalance - (monthlyPayment p - s.loanBalance * monthlyRate p)),
      totalPaid := s.totalPaid + monthlyPayment p }
  else
    { investmentValue := iv, loanBalance := s.loanBalance, totalPaid := s.totalPaid }

/-- The loop state after the first `k` months. -/
def stateAfter (p : SimpleParams) : ℕ → SimState
  | 0 => initState p
  | k + 1 => monthStep p (k + 1) (stateAfter p k)

end SimpleParams

/-- One `YearlyData` record of the simple variant. -/
structure YearlyData where
  year : ℕ
  investmentValue : ℚ
  loanBalance : ℚ
  totalPaid : ℚ
  netPosition : ℚ
  isLoanActive : Bool
  isDeferralPeriod : Bool
deriving DecidableEq

namespace SimpleParams

/-- The record pushed at the boundary of year `y ≥ 1` (lines 166–177). -/
def recordAt (p : SimpleParams) (y : ℕ) : YearlyData :=
  let s := stateAfter p (12 * y)
  { year := y
    investmentValue := s.investmentValue
    loanBalance := if 12 * y ≤ totalLoanMonths p then s.loanBalance else 0
    totalPaid := s.totalPaid
    netPosition := s.investmentValue - s.totalPaid
    isLoanActive := decide (12 * y ≤ totalLoanMonths p)
    isDeferralPeriod := decide (12 * y ≤ p.deferralMonths) }

/-- Source: `$: yearlyData = …` — one record per year `1 … analysisYears`. -/
def yearlyData (p : SimpleParams) : List YearlyData :=
  (List.range p.analysisYears).map (fun i => recordAt p (i + 1))

/-- The simple variant's break-even predicate:
`investmentValue - totalPaid >= totalInterest`. -/
def profitable (p : SimpleParams) (d : YearlyData) : Bool :=
  decide (totalInterest p ≤ d.investmentValue - d.totalPaid)

/-- Source: `$: breakEvenYear = yearlyData.findIndex(…) + 1 || null`:
`findIndex` yields `-1` when nothing matches, so `+ 1` gives the year
(index + 1) on success and the falsy `0`, hence `null`, on failure. -/
def breakEvenYear (p : SimpleParams) : Option ℕ :=
  match (yearlyData p).findIdx? (profitable p) with
  | some i => some (i + 1)
  | none => none

end SimpleParams

/-- Raw inputs of the full (insurance/inflation) variant
(`+page.svelte`, second script). -/
structure FullParams where
  loanAmount : ℚ
  interestRate : ℚ
  loanTermYears : ℕ
  downPayment : ℚ
  deferralMonths : ℕ
  /-- Flag for `deferralType === 'complete'`. -/
  deferralComplete : Bool
  insuranceCost : ℚ
  investmentRate : ℚ
  investmentVolatility : ℚ
  additionalYears : ℕ
  inflationRate : ℚ
deriving DecidableEq

namespace FullParams

/-- The reactive clamping block (lines 913–923 of the second script); the
deferral clamp reads the already clamped `loanTermYears`. -/
def clamp (q : FullParams) : FullParams where
  loanAmount := max 0 (min 10000000 q.loanAmount)
  downPayment := max 0 (min (max 0 (min 10000000 q.loanAmount)) q.downPayment)
  interestRate := max 0 (min 20 q.interestRate)
  loanTermYears := max 1 (min 40 q.loanTermYears)
  deferralMonths := min (max 1 (min 40 q.loanTermYears) * 12 - 1) q.deferralMonths
  deferralComplete := q.deferralComplete
  insuranceCost := max 0 (min 10000 q.insuranceCost)
  investmentRate := max 0 (min 30 q.investmentRate)
  investmentVolatility := max 0 (min 100 q.investmentVolatility)
  additionalYears := min 30 q.additionalYears
  inflationRate := max 0 (min 20 q.inflationRate)

/-- Source: `$: analysisYears = loanTermYears + additionalYears`. -/
def analysisYears (q : FullParams) : ℕ := q.loanTermYears + q.additionalYears

/-- Source: `$: monthlyRate = interestRate / 100 / 12`. -/
def monthlyRate (q : FullParams) : ℚ := q.interestRate / 100 / 12

/-- Source: `$: principal = loanAmount - downPayment`. -/
def principal (q : FullParams) : ℚ := q.loanAmount - q.downPayment

/-- Source: `$: totalLoanMonths = loanTermYears * 12` (deferral is inside the term). -/
def totalLoanMonths (q : FullParams) : ℕ := q.loanTermYears * 12

/-- Source: `$: numberOfPayments = Math.max(1, totalLoanMonths - deferralMonths)`
(`ℕ` truncated subtraction agrees with JS here: both sides of the `max` give 1
whenever the JS difference would be ≤ 1). -/
def numberOfPayments (q : FullParams) : ℕ := max 1 (totalLoanMonths q - q.deferralMonths)

/-- Source: `$: principalAfterDeferral` (lines 938–948), as in the simple variant. -/
def principalAfterDeferral (q : FullParams) : ℚ :=
  if q.deferralComplete then compound (monthlyRate q) q.deferralMonths (principal q)
  else principal q

/-- Source: `$: deferralInterestPaid = deferralType === 'partial' ? principal * monthlyRate * deferralMonths : 0`. -/
def deferralInterestPaid (q : FullParams) : ℚ :=
  if q.deferralComplete then 0
  else (q.loanAmount - q.downPayment) * monthlyRate q * q.deferralMonths

/-- Source: `$: monthlyPayment` (lines 956–960), annuity formula over `numberOfPayments`. -/
def monthlyPayment (q : FullParams) : ℚ :=
  if 0 < principalAfterDeferral q ∧ 0 < monthlyRate q then
    principalAfterDeferral q * (monthlyRate q * (1 + monthlyRate q) ^ numberOfPayments q) /
      ((1 + monthlyRate q) ^ numberOfPayments q - 1)
  else 0

/-- Source: `$: totalPayment = monthlyPayment * numberOfPayments`. -/
def totalPayment (q : FullParams) : ℚ := monthlyPayment q * numberOfPayments q

/-- Source: `$: totalInterest = totalPayment - principal + deferralInterestPaid`. -/
def totalInterest (q : FullParams) : ℚ :=
  totalPayment q - principal q + deferralInterestPaid q

/-- Source: `$: totalInsuranceCost = insuranceCost * totalLoanMonths`. -/
def totalInsuranceCost (q : FullParams) : ℚ := q.insuranceCost * totalLoanMonths q

/-- Source: `$: totalLoanBorrowingCost = totalInterest + totalInsuranceCost`. -/
def totalLoanBorrowingCost (q : FullParams) : ℚ := totalInterest q + totalInsuranceCost q

end FullParams

/-- Running state of the full variant's month loop. -/
structure FullState where
  investmentValue : ℚ
  loanBalance : ℚ
  totalPaid : ℚ
  totalBorrowingCost : ℚ
  inflationFactor : ℚ
deriving DecidableEq

namespace FullParams

/-- Loop initialisation (lines 997–1004): the borrowed principal is invested
up front. -/
def initState (q : FullParams) : FullState :=
  { investmentValue := principal q, loanBalance := principal q, totalPaid := 0,
    totalBorrowingCost := 0, inflationFactor := 1 }

/-- One iteration of the inner month loop (lines 1026–1064), `m` being
`totalMonthsElapsed` after the increment. -/
def monthStep (q : FullParams) (m : ℕ) (s : FullState) : FullState :=
  let infl := s.inflationFactor * (1 + q.inflationRate / 100 / 12)
  let iv := s.investmentValue * (1 + q.investmentRate / 100 / 12)
  let tp := if m ≤ totalLoanMonths q then s.totalPaid + q.insuranceCost else s.totalPaid
  let tbc :=
    if m ≤ totalLoanMonths q then s.totalBorrowingCost + q.insuranceCost
    else s.totalBorrowingCost
  if m ≤ q.deferralMonths then
    if q.deferralComplete then
      { investmentValue := iv, loanBalance := s.loanBalance * (1 + monthlyRate q),
        totalPaid := tp, totalBorrowingCost := tbc, inflationFactor := infl }
    else
      { investmentValue := iv, loanBalance := s.loanBalance,
        totalPaid := tp + s.loanBalance * monthlyRate q,
        totalBorrowingCost := tbc + s.loanBalance * monthlyRate q, inflationFactor := infl }
  else if m ≤ totalLoanMonths q then
    { investmentValue := iv,
      loanBalance := max 0 (s.loanBalance - (monthlyPayment q - s.loanBalance * monthlyRate q)),
      totalPaid := tp + monthlyPayment q,
      totalBorrowingCost := tbc + s.loanBalance * monthlyRate q, inflationFactor := infl }
  else
    { investmentValue := iv, loanBalance := s.loanBalance, totalPaid := tp,
      totalBorrowingCost := tbc, inflationFactor := infl }

/-- The loop state after the first `k` months. -/
def stateAfter (q : FullParams) : ℕ → FullState
  | 0 => initState q
  | k + 1 => monthStep q (k + 1) (stateAfter q k)

end FullParams

/-- One `YearlyData` record of the full variant. -/
structure FullYearlyData where
  year : ℕ
  investmentValue : ℚ
  investmentValueReal : ℚ
  interestEarned : ℚ
  interestEarnedReal : ℚ
  loanBalance : ℚ
  totalPaid : ℚ
  totalPaidReal : ℚ
  totalBorrowingCost : ℚ
  totalBorrowingCostReal : ℚ
  netPosition : ℚ
  netPositionReal : ℚ
  isLoanActive : Bool
  isDeferralPeriod : Bool
deriving DecidableEq

namespace FullParams

/-- The year-0 baseline record pushed before the loop (lines 1007–1022). -/
def record0 (q : FullParams) : FullYearlyData :=
  { year := 0, investmentValue := principal q, investmentValueReal := principal q,
    interestEarned := 0, interestEarnedReal := 0, loanBalance := principal q,
    totalPaid := 0, totalPaidReal := 0, totalBorrowingCost := 0, totalBorrowingCostReal := 0,
    netPosition := principal q, netPositionReal := principal q, isLoanActive := true,
    isDeferralPeriod := decide (0 < q.deferralMonths) }

/-- The record pushed at the boundary of year `y`: the year-0 baseline for
`y = 0`, the snapshot of lines 1067–1093 for `y ≥ 1`. -/
def recordAt (q : FullParams) : ℕ → FullYearlyData
  | 0 => record0 q
  | y + 1 =>
    let s := stateAfter q (12 * (y + 1))
    let ivReal := s.investmentValue / s.inflationFactor
    let tpReal := s.totalPaid / s.inflationFactor
    { year := y + 1
      investmentValue := s.investmentValue
      investmentValueReal := ivReal
      interestEarned := s.investmentValue - principal q
      interestEarnedReal := ivReal - principal q
      loanBalance := if 12 * (y + 1) ≤ totalLoanMonths q then s.loanBalance else 0
      totalPaid := s.totalPaid
      totalPaidReal := tpReal
      totalBorrowingCost := s.totalBorrowingCost
      totalBorrowingCostReal := s.totalBorrowingCost / s.inflationFactor
      netPosition := s.investmentValue - s.totalPaid
      netPositionReal := ivReal - tpReal
      isLoanActive := decide (12 * (y + 1) ≤ totalLoanMonths q)
      isDeferralPeriod := decide (12 * (y + 1) ≤ q.deferralMonths) }

/-- Source: `$: yearlyData = …` of the full variant: the year-0 record followed by one
record per year `1 … analysisYears`. -/
def yearlyData (q : FullParams) : List FullYearlyData :=
  record0 q :: (List.range (analysisYears q)).map (fun i => recordAt q (i + 1))

/-- The full variant's break-even predicate:
`d.interestEarned >= totalLoanBorrowingCost`. -/
def profitable (q : FullParams) (d : FullYearlyData) : Bool :=
  decide (totalLoanBorrowingCost q ≤ d.interestEarned)

/-- Source: `$: breakEvenYear = (() => { const found = yearlyData.find(…); return found ? found.year : null; })()`. -/
def breakEvenYear (q : FullParams) : Option ℕ :=
  ((yearlyData q).find? (profitable q)).map (fun d => d.year)

/-- Source: `$: finalInvestmentValue = yearlyData.length > 0 ? yearlyData[yearlyData.length - 1].investmentValue : 0`. -/
def finalInvestmentValue (q : FullParams) : ℚ :=
  match (yearlyData q).getLast? with
  | some d => d.investmentValue
  | none => 0

/-- Source: `$: scenarioCalculation = (rate) => …` (lines 1136–1145): start from the
principal and multiply by `(1 + rate / 100 / 12)` once per month of the whole
horizon (`analysisYears` years of 12 months), with no further cash flows. -/
def scenarioCalculation (q : FullParams) (rate : ℚ) : ℚ :=
  compound (rate / 100 / 12) (12 * analysisYears q) (principal q)

end FullParams

/-- Closed form of the remaining balance during repayment, `k` repayment months
in: the standard annuity balance
`B * ((1+r)^n - (1+r)^k) / ((1+r)^n - 1)` for base `B = principalAfterDeferral`.
Proof infrastructure, not part of the source. -/
def SimpleParams.annuityBalance (p : SimpleParams) (k : ℕ) : ℚ :=
  p.principalAfterDeferral *
      ((1 + p.monthlyRate) ^ p.numberOfPayments - (1 + p.monthlyRate) ^ k) /
    ((1 + p.monthlyRate) ^ p.numberOfPayments - 1)

/-- A zero-interest parameter set of the simple variant (fixed point of the
clamp): principal 1200, one-year term, no deferral. -/
def exampleRateZero : SimpleParams :=
  { loanAmount := 1200, interestRate := 0, loanTermYears := 1, downPayment := 0,
    deferralMonths := 0, deferralComplete := true, investmentRate := 0,
    investmentVolatility := 0, analysisYears := 1 }

/-- The zero-interest set with one year of capitalizing deferral. -/
def exampleRateZeroDeferral : SimpleParams :=
  { loanAmount := 1200, interestRate := 0, loanTermYears := 1, downPayment := 0,
    deferralMonths := 12, deferralComplete := true, investmentRate := 0,
    investmentVolatility := 0, analysisYears := 1 }

/-- An all-zero-money parameter set of the simple variant, horizon one year. -/
def exampleZeros : SimpleParams :=
  { loanAmount := 0, interestRate := 0, loanTermYears := 1, downPayment := 0,
    deferralMonths := 0, deferralComplete := true, investmentRate := 0,
    investmentVolatility := 0, analysisYears := 1 }

/-- A simple-variant parameter set whose clamped horizon (30 years) is shorter
than `ceil(totalLoanMonths / 12)` = 31 years: 12 deferral months on top of a
30-year term. -/
def exampleHorizonShort : SimpleParams :=
  { loanAmount := 200000, interestRate := 9 / 2, loanTermYears := 30, downPayment := 40000,
    deferralMonths := 12, deferralComplete := true, investmentRate := 7,
    investmentVolatility := 3, analysisYears := 30 }

/-- The spec's worked example: 200000 loan, 40000 down, 4.5 % over 30 years,
no deferral. -/
def exampleStandard : SimpleParams :=
  { loanAmount := 200000, interestRate := 9 / 2, loanTermYears := 30, downPayment := 40000,
    deferralMonths := 0, deferralComplete := true, investmentRate := 7,
    investmentVolatility := 3, analysisYears := 40 }

/-- A small positive-rate parameter set (1 % monthly rate, one-year term). -/
def exampleActive : SimpleParams :=
  { loanAmount := 1200, interestRate := 12, loanTermYears := 1, downPayment := 0,
    deferralMonths := 0, deferralComplete := true, investmentRate := 12,
    investmentVolatility := 0, analysisYears := 1 }

/-- The positive-rate set with one month of capitalizing deferral. -/
def exampleActiveDeferral : SimpleParams :=
  { loanAmount := 1200, interestRate := 12, loanTermYears := 1, downPayment := 0,
    deferralMonths := 1, deferralComplete := true, investmentRate := 12,
    investmentVolatility := 0, analysisYears := 1 }

/-- A simple-variant parameter set with `downPayment = loanAmount`
(zero principal). -/
def examplePrincipalZero : SimpleParams :=
  { loanAmount := 100, interestRate := 9 / 2, loanTermYears := 1, downPayment := 100,
    deferralMonths := 0, deferralComplete := true, investmentRate := 7,
    investmentVolatility := 0, analysisYears := 1 }

/-- A zero-interest, zero-insurance parameter set of the full variant (fixed
point of the clamp): its `totalLoanBorrowingCost` is negative, so the year-0
baseline record already satisfies the break-even predicate. -/
def exampleFullRateZero : FullParams :=
  { loanAmount := 200000, interestRate := 0, loanTermYears := 30, downPayment := 40000,
    deferralMonths := 12, deferralComplete := true, insuranceCost := 0, investmentRate := 7,
    investmentVolatility := 3, additionalYears := 10, inflationRate := 5 / 2 }

/-!
## Lemmas and claim theorems
-/

theorem compound_eq (r : ℚ) (k : ℕ) (b : ℚ) : compound r k b = b * (1 + r) ^ k := by
  induction k with
  | zero => simp [compound]
  | succ k ih => rw [compound, ih, pow_succ, mul_assoc]

namespace SimpleParams

variable {p : SimpleParams}

theorem monthlyRate_nonneg (h : 0 ≤ p.interestRate) : 0 ≤ p.monthlyRate := by
  unfold monthlyRate; positivity

theorem numberOfPayments_ne_zero (hT : 1 ≤ p.loanTermYears) : p.numberOfPayments ≠ 0 := by
  simp [numberOfPayments]; omega

theorem annuityDen_pos (hr : 0 < p.monthlyRate) (hT : 1 ≤ p.loanTermYears) :
    0 < (1 + p.monthlyRate) ^ p.numberOfPayments - 1 :=
  sub_pos.2 (one_lt_pow₀ (by linarith) (numberOfPayments_ne_zero hT))

theorem monthlyPayment_of_pos (hB : 0 < p.principalAfterDeferral) (hr : 0 < p.monthlyRate) :
    p.monthlyPayment =
      p.principalAfterDeferral * (p.monthlyRate * (1 + p.monthlyRate) ^ p.numberOfPayments) /
        ((1 + p.monthlyRate) ^ p.numberOfPayments - 1) :=
  if_pos ⟨hB, hr⟩

theorem monthlyPayment_nonneg (p : SimpleParams) : 0 ≤ p.monthlyPayment := by
  unfold monthlyPayment
  split
  · rename_i h
    obtain ⟨hB, hr⟩ := h
    have h1 : (0:ℚ) < 1 + p.monthlyRate := by linarith
    refine div_nonneg (le_of_lt ?_) (sub_nonneg.2 (one_le_pow₀ (by linarith)))
    exact mul_pos hB (mul_pos hr (pow_pos h1 _))
  · exact le_refl 0

theorem monthlyPayment_pos (hB : 0 < p.principalAfterDeferral) (hr : 0 < p.monthlyRate)
    (hT : 1 ≤ p.loanTermYears) : 0 < p.monthlyPayment := by
  rw [monthlyPayment_of_pos hB hr]
  have h1 : (0:ℚ) < 1 + p.monthlyRate := by linarith
  exact div_pos (mul_pos hB (mul_pos hr (pow_pos h1 _))) (annuityDen_pos hr hT)

theorem loanBalance_deferral (p : SimpleParams) :
    ∀ k, k ≤ p.deferralMonths → (p.stateAfter k).loanBalance =
      if p.deferralComplete then p.principal * (1 + p.monthlyRate) ^ k else p.principal := by
  intro k hk
  induction k with
  | zero => simp [stateAfter, initState]
  | succ k ih =>
    have hk' : k ≤ p.deferralMonths := by omega
    rw [stateAfter, monthStep]
    simp only [if_pos hk]
    cases hc : p.deferralComplete with
    | true => simp only [if_pos rfl]; rw [ih hk']; simp [hc, pow_succ, mul_assoc]
    | false => simp only [if_neg Bool.false_ne_true]; rw [ih hk']; simp [hc]

theorem loanBalance_at_deferral_end (p : SimpleParams) :
    (p.stateAfter p.deferralMonths).loanBalance = p.principalAfterDeferral := by
  rw [loanBalance_deferral p p.deferralMonths (le_refl _), principalAfterDeferral, compound_eq]

theorem loanBalance_zero_principal (h : p.principal = 0) :
    ∀ k, (p.stateAfter k).loanBalance = 0 := by
  have hpad : p.principalAfterDeferral = 0 := by
    unfold principalAfterDeferral
    rw [compound_eq, h]; simp
  have hpay : p.monthlyPayment = 0 := by
    unfold monthlyPayment
    rw [if_neg]; rintro ⟨h1, -⟩; rw [hpad] at h1; exact lt_irrefl 0 h1
  intro k
  induction k with
  | zero => simpa [stateAfter, initState]
  | succ k ih =>
    rw [stateAfter, monthStep]
    split
    · split <;> simp [ih]
    · split
      · simp [ih, hpay]
      · simp [ih]

theorem loanBalance_post_loan (p : SimpleParams) (m : ℕ) (h : p.totalLoanMonths ≤ m) :
    (p.stateAfter (m + 1)).loanBalance = (p.stateAfter m).loanBalance := by
  have hd : p.deferralMonths ≤ p.totalLoanMonths := Nat.le_add_right _ _
  rw [stateAfter, monthStep]
  rw [if_neg (by omega), if_neg (by omega)]

theorem annuityBalance_zero (hr : 0 < p.monthlyRate) (hT : 1 ≤ p.loanTermYears) :
    p.annuityBalance 0 = p.principalAfterDeferral := by
  have hD := annuityDen_pos hr hT
  rw [annuityBalance, pow_zero, mul_div_assoc, div_self (ne_of_gt hD), mul_one]

theorem annuityBalance_last (p : SimpleParams) : p.annuityBalance p.numberOfPayments = 0 := by
  rw [annuityBalance, sub_self, mul_zero, zero_div]

theorem annuityBalance_nonneg (hB : 0 ≤ p.principalAfterDeferral) (hr : 0 < p.monthlyRate)
    (hT : 1 ≤ p.loanTermYears) {k : ℕ} (hk : k ≤ p.numberOfPayments) :
    0 ≤ p.annuityBalance k := by
  have hD := annuityDen_pos hr hT
  apply div_nonneg _ hD.le
  apply mul_nonneg hB
  rw [sub_nonneg]
  exact pow_le_pow_right₀ (by linarith) hk

theorem annuityBalance_antitone (hB : 0 ≤ p.principalAfterDeferral) (hr : 0 < p.monthlyRate)
    (hT : 1 ≤ p.loanTermYears) {j k : ℕ} (hjk : j ≤ k) :
    p.annuityBalance k ≤ p.annuityBalance j := by
  have hD := annuityDen_pos hr hT
  have hpow : (1 + p.monthlyRate) ^ j ≤ (1 + p.monthlyRate) ^ k :=
    pow_le_pow_right₀ (by linarith) hjk
  unfold annuityBalance
  rw [div_le_div_iff_of_pos_right hD]
  exact mul_le_mul_of_nonneg_left (sub_le_sub_left hpow _) hB

theorem loanBalance_repayment (hB : 0 < p.principalAfterDeferral) (hr : 0 < p.monthlyRate)
    (hT : 1 ≤ p.loanTermYears) :
    ∀ k, k ≤ p.numberOfPayments →
      (p.stateAfter (p.deferralMonths + k)).loanBalance = p.annuityBalance k := by
  intro k hk
  induction k with
  | zero => rw [Nat.add_zero, loanBalance_at_deferral_end, annuityBalance_zero hr hT]
  | succ k ih =>
    have hk' : k ≤ p.numberOfPayments := by omega
    have hD := annuityDen_pos hr hT
    have h1 : ¬ (p.deferralMonths + k + 1 ≤ p.deferralMonths) := by omega
    have h2 : p.deferralMonths + k + 1 ≤ p.totalLoanMonths := by
      unfold totalLoanMonths; omega
    have key : p.annuityBalance k - (p.monthlyPayment - p.annuityBalance k * p.monthlyRate) =
        p.annuityBalance (k + 1) := by
      rw [monthlyPayment_of_pos hB hr]
      unfold annuityBalance
      field_simp
      ring
    rw [show p.deferralMonths + (k + 1) = (p.deferralMonths + k) + 1 by omega]
    rw [stateAfter, monthStep]
    simp only [if_neg h1, if_pos h2]
    rw [ih hk', key]
    exact max_eq_right (annuityBalance_nonneg hB.le hr hT hk)

theorem principalAfterDeferral_pos (hpos : 0 < p.principal) (hr : 0 < p.monthlyRate) :
    0 < p.principalAfterDeferral := by
  unfold principalAfterDeferral
  split
  · rw [compound_eq]; exact mul_pos hpos (pow_pos (by linarith) _)
  · exact hpos

end SimpleParams

/-- C3 (corrected): in the simple variant's month-by-month simulation, for
every parameter set with `downPayment ≤ loanAmount`, a term of at least one
year and a *positive* monthly rate, the loan balance is non-increasing from
the first repayment month onward and equals exactly 0 at the final repayment
month (`totalLoanMonths`).  (The original claim, quantified over parameter
sets with `monthlyRate = 0` as well, is refuted by
`claim_C3_counterexample`.) -/
theorem claim_C3_loanBalance_monotone_retired (p : SimpleParams)
    (hdp : p.downPayment ≤ p.loanAmount) (hT : 1 ≤ p.loanTermYears)
    (hr : 0 < p.monthlyRate) :
    (∀ m, p.deferralMonths ≤ m →
        (p.stateAfter (m + 1)).loanBalance ≤ (p.stateAfter m).loanBalance) ∧
      (p.stateAfter p.totalLoanMonths).loanBalance = 0 := by
  have hpr : 0 ≤ p.principal := sub_nonneg.2 hdp
  rcases eq_or_lt_of_le hpr with h0 | hpos
  · have hz := SimpleParams.loanBalance_zero_principal (p := p) h0.symm
    exact ⟨fun m _ => by rw [hz, hz], hz _⟩
  · have hB : 0 < p.principalAfterDeferral := SimpleParams.principalAfterDeferral_pos hpos hr
    constructor
    · intro m hm
      rcases lt_or_ge m p.totalLoanMonths with hlt | hge
      · obtain ⟨k, rfl⟩ : ∃ k, m = p.deferralMonths + k := ⟨m - p.deferralMonths, by omega⟩
        have hn : p.totalLoanMonths = p.deferralMonths + p.numberOfPayments := rfl
        have hk1 : k + 1 ≤ p.numberOfPayments := by omega
        rw [show p.deferralMonths + k + 1 = p.deferralMonths + (k + 1) by omega]
        rw [SimpleParams.loanBalance_repayment hB hr hT (k + 1) hk1,
          SimpleParams.loanBalance_repayment hB hr hT k (by omega)]
        exact SimpleParams.annuityBalance_antitone hB.le hr hT (Nat.le_succ k)
      · rw [SimpleParams.loanBalance_post_loan p m hge]
    · have hn : p.totalLoanMonths = p.deferralMonths + p.numberOfPayments := rfl
      rw [hn, SimpleParams.loanBalance_repayment hB hr hT _ (le_refl _),
        SimpleParams.annuityBalance_last]

/-- C3 witness: the positive-rate one-year loan retires exactly at month 12. -/
theorem claim_C3_witness :
    (exampleActive.stateAfter exampleActive.totalLoanMonths).loanBalance = 0 :=
  (claim_C3_loanBalance_monotone_retired exampleActive (by norm_num [exampleActive])
    (by norm_num [exampleActive])
    (by norm_num [exampleActive, SimpleParams.monthlyRate])).2

/-- C3 counterexample: at the zero-interest parameter set `exampleRateZero`
(a fixed point of the clamp, principal 1200, one-year term, no deferral) the
rate-0 branch makes `monthlyPayment = 0`, so the simulated balance is still
the full 1200 at the final repayment month instead of 0. -/
theorem claim_C3_counterexample :
    SimpleParams.clamp exampleRateZero = exampleRateZero ∧
      exampleRateZero.totalLoanMonths = 12 ∧
      (exampleRateZero.stateAfter 12).loanBalance = 1200 ∧ (1200 : ℚ) ≠ 0 := by
  refine ⟨?_, rfl, ?_, by norm_num⟩
  · simp [SimpleParams.clamp, exampleRateZero, SimpleParams.mk.injEq, max_def, min_def]
    norm_num
  · norm_num [SimpleParams.stateAfter, SimpleParams.monthStep, SimpleParams.initState,
      SimpleParams.monthlyPayment, SimpleParams.monthlyRate, SimpleParams.principal,
      SimpleParams.totalLoanMonths, SimpleParams.numberOfPayments, exampleRateZero]

/-- C1 (corrected): for every simple-variant parameter set with
`monthlyRate = 0`, the guard `monthlyRate > 0` of the payment expression
fails, so `monthlyPayment` is the 0 sentinel — not
`principal / numberOfPayments` as the original claim states (refuted by
`claim_C1_counterexample`). -/
theorem claim_C1_monthlyPayment_rate_zero (p : LoanSim.SimpleParams)
    (h : p.monthlyRate = 0) : p.monthlyPayment = 0 := by
  rw [SimpleParams.monthlyPayment, if_neg]
  rintro ⟨-, h2⟩
  rw [h] at h2
  exact lt_irrefl 0 h2

/-- C1 witness: the zero-interest example has `monthlyRate = 0` and payment 0. -/
theorem claim_C1_witness : exampleRateZero.monthlyPayment = 0 :=
  claim_C1_monthlyPayment_rate_zero exampleRateZero
    (by norm_num [exampleRateZero, SimpleParams.monthlyRate])

/-- C1 counterexample: `exampleRateZero` is a fixed point of the clamp with
`monthlyRate = 0` and positive principal 1200 over 12 payments, yet the code
returns `monthlyPayment = 0`, not `principal / numberOfPayments = 100`. -/
theorem claim_C1_counterexample :
    SimpleParams.clamp exampleRateZero = exampleRateZero ∧
      exampleRateZero.monthlyRate = 0 ∧
      exampleRateZero.monthlyPayment = 0 ∧
      exampleRateZero.principal / (exampleRateZero.numberOfPayments : ℚ) = 100 ∧
      (0 : ℚ) ≠ 100 := by
  refine ⟨?_, ?_, ?_, ?_, by norm_num⟩
  · simp [SimpleParams.clamp, exampleRateZero, SimpleParams.mk.injEq, max_def, min_def]
    norm_num
  · norm_num [exampleRateZero, SimpleParams.monthlyRate]
  · norm_num [exampleRateZero, SimpleParams.monthlyPayment, SimpleParams.monthlyRate]
  · norm_num [exampleRateZero, SimpleParams.principal, SimpleParams.numberOfPayments]

/-- C6: for every simple-variant parameter set with `downPayment = loanAmount`
(zero principal), the monthly payment is the 0 sentinel and every record of
the yearly sequence has `loanBalance = 0`; the embedding is total, so no
error can be raised. -/
theorem claim_C6_principal_zero (p : LoanSim.SimpleParams)
    (h : p.downPayment = p.loanAmount) :
    p.monthlyPayment = 0 ∧ ∀ d ∈ p.yearlyData, d.loanBalance = 0 := by
  have hpr : p.principal = 0 := by rw [SimpleParams.principal, h, sub_self]
  have hbal := SimpleParams.loanBalance_zero_principal (p := p) hpr
  constructor
  · rw [SimpleParams.monthlyPayment, if_neg]
    rintro ⟨h1, -⟩
    rw [SimpleParams.principalAfterDeferral] at h1
    split at h1
    · rw [compound_eq, hpr, zero_mul] at h1
      exact lt_irrefl 0 h1
    · rw [hpr] at h1
      exact lt_irrefl 0 h1
  · intro d hd
    rw [SimpleParams.yearlyData] at hd
    obtain ⟨i, -, rfl⟩ := List.mem_map.1 hd
    rw [SimpleParams.recordAt]
    simp only
    split
    · exact hbal _
    · rfl

/-- C6 witness: with a 100 loan fully covered by the down payment, the payment
is 0. -/
theorem claim_C6_witness : examplePrincipalZero.monthlyPayment = 0 :=
  (claim_C6_principal_zero examplePrincipalZero (by norm_num [examplePrincipalZero])).1

/-- C5 (corrected): with positive principal, at least one deferral month,
capitalizing deferral and a *positive* monthly rate, the amortization base
`principalAfterDeferral` and the monthly payment are strictly larger than with
zero deferral, all else equal.  (At `monthlyRate = 0` the original claim fails:
see `claim_C5_counterexample`.) -/
theorem claim_C5_capitalizing_deferral_increases (p : LoanSim.SimpleParams)
    (hpr : 0 < p.principal) (hd : 1 ≤ p.deferralMonths) (hc : p.deferralComplete = true)
    (hr : 0 < p.monthlyRate) (hT : 1 ≤ p.loanTermYears) :
    SimpleParams.principalAfterDeferral { p with deferralMonths := 0 } <
        p.principalAfterDeferral ∧
      SimpleParams.monthlyPayment { p with deferralMonths := 0 } < p.monthlyPayment := by
  have hp0 : SimpleParams.principalAfterDeferral { p with deferralMonths := 0 } =
      p.principal := by
    rw [SimpleParams.principalAfterDeferral]
    split <;> rfl
  have h1 : p.principal < p.principalAfterDeferral := by
    rw [SimpleParams.principalAfterDeferral, if_pos hc, compound_eq]
    nth_rewrite 1 [← mul_one p.principal]
    exact mul_lt_mul_of_pos_left (one_lt_pow₀ (by linarith) (by omega)) hpr
  have hB : 0 < p.principalAfterDeferral := hpr.trans h1
  have hB' : 0 < SimpleParams.principalAfterDeferral { p with deferralMonths := 0 } := by
    rw [hp0]; exact hpr
  have hracc : SimpleParams.monthlyRate { p with deferralMonths := 0 } = p.monthlyRate := rfl
  have hnacc : SimpleParams.numberOfPayments { p with deferralMonths := 0 } =
      p.numberOfPayments := rfl
  have hD := SimpleParams.annuityDen_pos (p := p) hr hT
  refine ⟨by rw [hp0]; exact h1, ?_⟩
  rw [SimpleParams.monthlyPayment_of_pos hB' (by rw [hracc]; exact hr),
    SimpleParams.monthlyPayment_of_pos hB hr, hracc, hnacc, hp0,
    div_lt_div_iff_of_pos_right hD]
  exact mul_lt_mul_of_pos_right h1
    (mul_pos hr (pow_pos (by linarith) _))

/-- C5 witness: one month of capitalizing deferral at a 1 % monthly rate
strictly increases base and payment. -/
theorem claim_C5_witness :
    SimpleParams.principalAfterDeferral { exampleActiveDeferral with deferralMonths := 0 } <
        exampleActiveDeferral.principalAfterDeferral ∧
      SimpleParams.monthlyPayment { exampleActiveDeferral with deferralMonths := 0 } <
        exampleActiveDeferral.monthlyPayment :=
  claim_C5_capitalizing_deferral_increases exampleActiveDeferral
    (by norm_num [exampleActiveDeferral, SimpleParams.principal])
    (by norm_num [exampleActiveDeferral]) rfl
    (by norm_num [exampleActiveDeferral, SimpleParams.monthlyRate])
    (by norm_num [exampleActiveDeferral])

/-- C5 counterexample: at the clamped zero-interest set
`exampleRateZeroDeferral` (principal 1200, 12 capitalizing deferral months)
the amortization base and the monthly payment are *equal* to their
zero-deferral counterparts, not strictly larger. -/
theorem claim_C5_counterexample :
    SimpleParams.clamp exampleRateZeroDeferral = exampleRateZeroDeferral ∧
      0 < exampleRateZeroDeferral.principal ∧
      1 ≤ exampleRateZeroDeferral.deferralMonths ∧
      exampleRateZeroDeferral.deferralComplete = true ∧
      SimpleParams.principalAfterDeferral { exampleRateZeroDeferral with deferralMonths := 0 } =
        exampleRateZeroDeferral.principalAfterDeferral ∧
      SimpleParams.monthlyPayment { exampleRateZeroDeferral with deferralMonths := 0 } =
        exampleRateZeroDeferral.monthlyPayment := by
  refine ⟨?_, ?_, by norm_num [exampleRateZeroDeferral], rfl, ?_, ?_⟩
  · simp [SimpleParams.clamp, exampleRateZeroDeferral, SimpleParams.mk.injEq, max_def, min_def]
    norm_num
  · norm_num [exampleRateZeroDeferral, SimpleParams.principal]
  · norm_num [SimpleParams.principalAfterDeferral, compound_eq, SimpleParams.monthlyRate,
      SimpleParams.principal, exampleRateZeroDeferral]
  · norm_num [SimpleParams.monthlyPayment, SimpleParams.principalAfterDeferral, compound_eq,
      SimpleParams.monthlyRate, SimpleParams.principal, SimpleParams.numberOfPayments,
      exampleRateZeroDeferral]

namespace SimpleParams

variable {p : SimpleParams}

theorem state_nonneg (hir : 0 ≤ p.interestRate) (hinv : 0 ≤ p.investmentRate)
    (hdp : 0 ≤ p.downPayment) (hpr : 0 ≤ p.principal) :
    ∀ k, 0 ≤ (p.stateAfter k).investmentValue ∧ 0 ≤ (p.stateAfter k).loanBalance := by
  have hr : 0 ≤ p.monthlyRate := monthlyRate_nonneg hir
  have hmir : (0:ℚ) ≤ 1 + p.investmentRate / 100 / 12 := by positivity
  have h1r : (0:ℚ) ≤ 1 + p.monthlyRate := by linarith
  intro k
  induction k with
  | zero => exact ⟨hdp, hpr⟩
  | succ k ih =>
    obtain ⟨hiv, hlb⟩ := ih
    rw [stateAfter, monthStep]
    split
    · split
      · exact ⟨mul_nonneg hiv hmir, mul_nonneg hlb h1r⟩
      · exact ⟨add_nonneg (mul_nonneg hiv hmir) (mul_nonneg hlb hr), hlb⟩
    · split
      · exact ⟨add_nonneg (mul_nonneg hiv hmir) p.monthlyPayment_nonneg, le_max_left 0 _⟩
      · exact ⟨mul_nonneg hiv hmir, hlb⟩

theorem state_step_mono (hir : 0 ≤ p.interestRate) (hinv : 0 ≤ p.investmentRate)
    (hdp : 0 ≤ p.downPayment) (hpr : 0 ≤ p.principal) (k : ℕ) :
    (p.stateAfter k).investmentValue ≤ (p.stateAfter (k + 1)).investmentValue ∧
      (p.stateAfter k).totalPaid ≤ (p.stateAfter (k + 1)).totalPaid := by
  have hr : 0 ≤ p.monthlyRate := monthlyRate_nonneg hir
  obtain ⟨hiv, hlb⟩ := state_nonneg hir hinv hdp hpr k
  have base : (p.stateAfter k).investmentValue ≤
      (p.stateAfter k).investmentValue * (1 + p.investmentRate / 100 / 12) :=
    le_mul_of_one_le_right hiv (by linarith [div_nonneg (div_nonneg hinv (by norm_num : (0:ℚ) ≤ 100)) (by norm_num : (0:ℚ) ≤ 12)])
  have hio : 0 ≤ (p.stateAfter k).loanBalance * p.monthlyRate := mul_nonneg hlb hr
  rw [stateAfter, monthStep]
  split
  · split
    · exact ⟨base, le_refl _⟩
    · exact ⟨base.trans (le_add_of_nonneg_right hio), le_add_of_nonneg_right hio⟩
  · split
    · exact ⟨base.trans (le_add_of_nonneg_right p.monthlyPayment_nonneg),
        le_add_of_nonneg_right p.monthlyPayment_nonneg⟩
    · exact ⟨base, le_refl _⟩

theorem state_mono (hir : 0 ≤ p.interestRate) (hinv : 0 ≤ p.investmentRate)
    (hdp : 0 ≤ p.downPayment) (hpr : 0 ≤ p.principal) {j k : ℕ} (hjk : j ≤ k) :
    (p.stateAfter j).investmentValue ≤ (p.stateAfter k).investmentValue ∧
      (p.stateAfter j).totalPaid ≤ (p.stateAfter k).totalPaid := by
  induction hjk with
  | refl => exact ⟨le_refl _, le_refl _⟩
  | step h ih =>
    obtain ⟨h1, h2⟩ := state_step_mono hir hinv hdp hpr _
    exact ⟨ih.1.trans h1, ih.2.trans h2⟩

end SimpleParams

/-- C7: across the simple variant's yearly sequence, `totalPaid` and (given
the clamp's guarantee `investmentRate ≥ 0`, taken as a hypothesis)
`investmentValue` are monotonically non-decreasing: the record list is
pairwise ordered by both fields. -/
theorem claim_C7_totalPaid_investment_monotone (p : LoanSim.SimpleParams)
    (hir : 0 ≤ p.interestRate) (hinv : 0 ≤ p.investmentRate)
    (hdp : 0 ≤ p.downPayment) (hdl : p.downPayment ≤ p.loanAmount) :
    p.yearlyData.Pairwise
      (fun a b => a.totalPaid ≤ b.totalPaid ∧ a.investmentValue ≤ b.investmentValue) := by
  have hpr : 0 ≤ p.principal := sub_nonneg.2 hdl
  rw [SimpleParams.yearlyData, List.pairwise_map]
  apply List.Pairwise.imp ?_ (List.pairwise_lt_range p.analysisYears)
  intro i j hij
  have h12 : 12 * (i + 1) ≤ 12 * (j + 1) := by omega
  obtain ⟨h1, h2⟩ := SimpleParams.state_mono hir hinv hdp hpr h12
  exact ⟨h2, h1⟩

/-- C7 witness: the pairwise monotonicity at the concrete positive-rate
example. -/
theorem claim_C7_witness :
    exampleActive.yearlyData.Pairwise
      (fun a b => a.totalPaid ≤ b.totalPaid ∧ a.investmentValue ≤ b.investmentValue) :=
  claim_C7_totalPaid_investment_monotone exampleActive
    (by norm_num [exampleActive]) (by norm_num [exampleActive])
    (by norm_num [exampleActive]) (by norm_num [exampleActive])

namespace SimpleParams

theorem yearlyData_length (p : SimpleParams) : p.yearlyData.length = p.analysisYears := by
  simp [yearlyData]

theorem yearlyData_getElem (p : SimpleParams) (i : ℕ) (h : i < p.yearlyData.length) :
    p.yearlyData[i] = p.recordAt (i + 1) := by
  simp [yearlyData]

end SimpleParams

theorem find?_minimal {α : Type} (pr : α → Bool) :
    ∀ (l : List α) (b : α), l.find? pr = some b →
      ∃ i, ∃ h : i < l.length, l[i] = b ∧ pr b = true ∧
        ∀ j, j < i → ∀ hj : j < l.length, pr (l[j]) = false := by
  intro l
  induction l with
  | nil => intro b h; simp at h
  | cons a t ih =>
    intro b hb
    by_cases ha : pr a = true
    · rw [List.find?_cons_of_pos _ ha] at hb
      obtain rfl : a = b := by injection hb
      exact ⟨0, by simp, by simp, ha, fun j hj _ => absurd hj (Nat.not_lt_zero j)⟩
    · have ha' : pr a = false := by simpa using ha
      rw [List.find?_cons_of_neg _ (by simp [ha'])] at hb
      obtain ⟨i, h, heq, hpb, hmin⟩ := ih b hb
      refine ⟨i + 1, by simpa using Nat.succ_lt_succ h, by simpa using heq, hpb, ?_⟩
      intro j hj hjlen
      cases j with
      | zero => simpa using ha'
      | succ j =>
        simpa using hmin j (Nat.lt_of_succ_lt_succ hj) (by simpa using Nat.lt_of_succ_lt_succ hjlen)

namespace FullParams

theorem recordAt_year (q : FullParams) (i : ℕ) : (q.recordAt i).year = i := by
  cases i <;> rfl

theorem yearlyData_eq_map (q : FullParams) :
    q.yearlyData = (List.range (q.analysisYears + 1)).map q.recordAt := by
  rw [yearlyData, List.range_succ_eq_map, List.map_cons, List.map_map]
  rfl

theorem fullYearlyData_length (q : FullParams) : q.yearlyData.length = q.analysisYears + 1 := by
  rw [yearlyData_eq_map]; simp

theorem fullYearlyData_getElem (q : FullParams) (i : ℕ) (h : i < q.yearlyData.length) :
    q.yearlyData[i] = q.recordAt i := by
  have h' : i < q.analysisYears + 1 := by rwa [fullYearlyData_length] at h
  simp [yearlyData_eq_map]

end FullParams

/-- C2: in both variants the break-even finder returns the minimal profitable
year of the yearly sequence (no earlier year of the sequence satisfies the
predicate), and the `none`/`null` sentinel — not zero, and the embedding is
total so no exception — exactly when no year of the horizon satisfies it. -/
theorem claim_C2_breakEven_minimal (p : LoanSim.SimpleParams) (q : LoanSim.FullParams) :
    (∀ y, p.breakEvenYear = some y →
        1 ≤ y ∧ y ≤ p.analysisYears ∧ p.profitable (p.recordAt y) = true ∧
          ∀ z, 1 ≤ z → z < y → p.profitable (p.recordAt z) = false) ∧
      (p.breakEvenYear = none →
        ∀ z, 1 ≤ z → z ≤ p.analysisYears → p.profitable (p.recordAt z) = false) ∧
      (∀ y, q.breakEvenYear = some y →
        y ≤ q.analysisYears ∧ q.profitable (q.recordAt y) = true ∧
          ∀ z, z < y → q.profitable (q.recordAt z) = false) ∧
      (q.breakEvenYear = none →
        ∀ z, z ≤ q.analysisYears → q.profitable (q.recordAt z) = false) := by
  refine ⟨?_, ?_, ?_, ?_⟩
  · intro y hy
    rw [SimpleParams.breakEvenYear] at hy
    cases hfi : p.yearlyData.findIdx? p.profitable with
    | none => rw [hfi] at hy; cases hy
    | some i =>
      rw [hfi] at hy
      injection hy with hy
      subst hy
      obtain ⟨hlen, hp, hmin⟩ := List.findIdx?_eq_some_iff_getElem.1 hfi
      rw [SimpleParams.yearlyData_getElem p i hlen] at hp
      have hA : i < p.analysisYears := by
        have h' := hlen; rwa [SimpleParams.yearlyData_length] at h'
      refine ⟨by omega, by omega, hp, ?_⟩
      intro z h1z hzy
      have hz : z - 1 < i := by omega
      have hzlen : z - 1 < p.yearlyData.length := by
        rw [SimpleParams.yearlyData_length]; omega
      have hj := hmin (z - 1) hz
      rw [SimpleParams.yearlyData_getElem p (z - 1) hzlen] at hj
      rw [show z - 1 + 1 = z by omega] at hj
      simpa using hj
  · intro hnone z h1z hzA
    rw [SimpleParams.breakEvenYear] at hnone
    cases hfi : p.yearlyData.findIdx? p.profitable with
    | some i => rw [hfi] at hnone; cases hnone
    | none =>
      have hall := List.findIdx?_eq_none_iff.1 hfi
      have hzlen : z - 1 < p.yearlyData.length := by
        rw [SimpleParams.yearlyData_length]; omega
      have hg := SimpleParams.yearlyData_getElem p (z - 1) hzlen
      rw [show z - 1 + 1 = z by omega] at hg
      have hmem : p.recordAt z ∈ p.yearlyData := by
        rw [← hg]; exact List.getElem_mem hzlen
      simpa using hall _ hmem
  · intro y hy
    rw [FullParams.breakEvenYear] at hy
    cases hf : q.yearlyData.find? q.profitable with
    | none => rw [hf] at hy; cases hy
    | some b =>
      rw [hf] at hy
      simp only [Option.map_some'] at hy
      injection hy with hy
      obtain ⟨i, hlen, hib, hpb, hmin⟩ := find?_minimal _ _ _ hf
      rw [FullParams.fullYearlyData_getElem q i hlen] at hib
      subst hib
      rw [FullParams.recordAt_year] at hy
      subst hy
      have hA : i < q.analysisYears + 1 := by
        have h' := hlen; rwa [FullParams.fullYearlyData_length] at h'
      refine ⟨by omega, hpb, ?_⟩
      intro z hzy
      have hzlen : z < q.yearlyData.length := by
        rw [FullParams.fullYearlyData_length]; omega
      have hj := hmin z hzy hzlen
      rwa [FullParams.fullYearlyData_getElem q z hzlen] at hj
  · intro hnone z hzA
    rw [FullParams.breakEvenYear] at hnone
    cases hf : q.yearlyData.find? q.profitable with
    | some b => rw [hf] at hnone; cases hnone
    | none =>
      have hall := List.find?_eq_none.1 hf
      have hzlen : z < q.yearlyData.length := by
        rw [FullParams.fullYearlyData_length]; omega
      have hmem : q.recordAt z ∈ q.yearlyData := by
        rw [← FullParams.fullYearlyData_getElem q z hzlen]; exact List.getElem_mem hzlen
      simpa using hall _ hmem

/-- C2 witness: at the all-zero example the first year is already profitable
and the finder returns it. -/
theorem claim_C2_witness :
    1 ≤ 1 ∧ exampleZeros.profitable (exampleZeros.recordAt 1) = true := by
  have hp : exampleZeros.profitable (exampleZeros.recordAt 1) = true := by
    norm_num [SimpleParams.profitable, SimpleParams.recordAt, SimpleParams.stateAfter,
      SimpleParams.monthStep, SimpleParams.initState, SimpleParams.totalInterest,
      SimpleParams.totalPayment, SimpleParams.monthlyPayment, SimpleParams.monthlyRate,
      SimpleParams.principal, SimpleParams.totalLoanMonths, SimpleParams.numberOfPayments,
      exampleZeros]
  have h : exampleZeros.breakEvenYear = some 1 := by
    rw [SimpleParams.breakEvenYear, SimpleParams.yearlyData]
    rw [show exampleZeros.analysisYears = 1 from rfl, show List.range 1 = [0] from rfl]
    simp [List.findIdx?_cons, hp]
  exact ⟨le_refl 1,
    ((claim_C2_breakEven_minimal exampleZeros exampleFullRateZero).1 1 h).2.2.1⟩

/-- C4 (corrected): after clamping, the full variant's horizon covers the
whole loan: `analysisYears ≥ ceil(totalLoanMonths / 12)` (with `ceil(m / 12)`
written `(m + 11) / 12` in `ℕ`).  In the simple variant — the one whose
`totalLoanMonths` includes the deferral months — only
`analysisYears ≥ ceil(numberOfPayments / 12) = loanTermYears` holds, and the
original bound fails (`claim_C4_counterexample`). -/
theorem claim_C4_horizon_covers_loan (s : LoanSim.SimpleParams) (q : LoanSim.FullParams) :
    (FullParams.totalLoanMonths (FullParams.clamp q) + 11) / 12 ≤
        FullParams.analysisYears (FullParams.clamp q) ∧
      (SimpleParams.numberOfPayments (SimpleParams.clamp s) + 11) / 12 ≤
        (SimpleParams.clamp s).analysisYears := by
  constructor
  · simp only [FullParams.totalLoanMonths, FullParams.analysisYears, FullParams.clamp]
    omega
  · simp only [SimpleParams.numberOfPayments, SimpleParams.clamp]
    omega

/-- C4 counterexample: clamping `exampleHorizonShort` (30-year term, 12
deferral months, requested horizon 30) leaves `analysisYears = 30`, while
`ceil(totalLoanMonths / 12) = ceil(372 / 12) = 31`. -/
theorem claim_C4_counterexample :
    (SimpleParams.clamp exampleHorizonShort).analysisYears = 30 ∧
      SimpleParams.totalLoanMonths (SimpleParams.clamp exampleHorizonShort) = 372 ∧
      ¬ ((SimpleParams.totalLoanMonths (SimpleParams.clamp exampleHorizonShort) + 11) / 12 ≤
          (SimpleParams.clamp exampleHorizonShort).analysisYears) :=
  ⟨rfl, rfl, by decide⟩

namespace FullParams

theorem monthStep_investmentValue (q : FullParams) (m : ℕ) (s : FullState) :
    (q.monthStep m s).investmentValue =
      s.investmentValue * (1 + q.investmentRate / 100 / 12) := by
  rw [monthStep]
  split
  · split <;> rfl
  · split <;> rfl

theorem investmentValue_closed (q : FullParams) :
    ∀ k, (q.stateAfter k).investmentValue =
      q.principal * (1 + q.investmentRate / 100 / 12) ^ k := by
  intro k
  induction k with
  | zero => simp [stateAfter, initState]
  | succ k ih =>
    rw [stateAfter, monthStep_investmentValue, ih, pow_succ, mul_assoc]

theorem yearlyData_getLast (q : FullParams) :
    q.yearlyData.getLast? = some (q.recordAt q.analysisYears) := by
  rw [yearlyData_eq_map, List.range_succ, List.map_append]
  simp

end FullParams

/-- C9: in the full variant the expected-case scenario value at the
investment rate coincides exactly with the final year's `investmentValue` of
the main yearly simulation: both compound the invested principal monthly over
the whole horizon with no payment additions. -/
theorem claim_C9_scenario_matches_final (q : LoanSim.FullParams) :
    q.finalInvestmentValue = q.scenarioCalculation q.investmentRate := by
  unfold FullParams.finalInvestmentValue
  rw [FullParams.yearlyData_getLast, FullParams.scenarioCalculation, compound_eq]
  cases hA : q.analysisYears with
  | zero =>
    show (q.recordAt 0).investmentValue = q.principal * (1 + q.investmentRate / 100 / 12) ^ (12 * 0)
    simp [FullParams.recordAt, FullParams.record0]
  | succ A =>
    show (q.recordAt (A + 1)).investmentValue =
      q.principal * (1 + q.investmentRate / 100 / 12) ^ (12 * (A + 1))
    rw [FullParams.recordAt]
    simp only
    rw [FullParams.investmentValue_closed]

/-- C10: at the clamped zero-interest, zero-insurance full-variant input
`exampleFullRateZero`, `totalLoanBorrowingCost` is non-positive, the year-0
baseline record (with `interestEarned = 0`) already satisfies the break-even
predicate, and `breakEvenYear` is the number `0` — a falsy value distinct
from the `null` absence sentinel. -/
theorem claim_C10_breakEven_year_zero :
    FullParams.clamp exampleFullRateZero = exampleFullRateZero ∧
      exampleFullRateZero.record0.interestEarned = 0 ∧
      exampleFullRateZero.totalLoanBorrowingCost ≤ 0 ∧
      exampleFullRateZero.breakEvenYear = some 0 ∧
      some 0 ≠ (none : Option ℕ) := by
  have hcost : exampleFullRateZero.totalLoanBorrowingCost = -160000 := by
    norm_num [FullParams.totalLoanBorrowingCost, FullParams.totalInterest,
      FullParams.totalPayment, FullParams.monthlyPayment, FullParams.monthlyRate,
      FullParams.principal, FullParams.deferralInterestPaid, FullParams.totalInsuranceCost,
      FullParams.principalAfterDeferral, FullParams.totalLoanMonths, exampleFullRateZero,
      compound_eq]
  have hp : FullParams.profitable exampleFullRateZero exampleFullRateZero.record0 = true := by
    rw [FullParams.profitable, hcost]
    norm_num [FullParams.record0]
  refine ⟨?_, rfl, by rw [hcost]; norm_num, ?_, by simp⟩
  · simp [FullParams.clamp, exampleFullRateZero, FullParams.mk.injEq, max_def, min_def]
    norm_num
  · rw [FullParams.breakEvenYear, FullParams.yearlyData, List.find?_cons_of_pos _ hp]
    simp [FullParams.record0]

/-- C8: the spec's worked example: 200000 loan, 40000 down, 4.5 % annual rate,
30-year term, no deferral (a fixed point of the clamp) gives
`principal = 160000`, `monthlyRate = 0.00375 = 3/800`,
`numberOfPayments = 360`, and a monthly payment within half a cent of 810.70
(display rounding). -/
theorem claim_C8_standard_example :
    SimpleParams.clamp exampleStandard = exampleStandard ∧
      exampleStandard.principal = 160000 ∧
      exampleStandard.monthlyRate = 3 / 800 ∧
      exampleStandard.numberOfPayments = 360 ∧
      |exampleStandard.monthlyPayment - 81070 / 100| < 1 / 200 := by
  have hrate : exampleStandard.monthlyRate = 3 / 800 := by
    norm_num [SimpleParams.monthlyRate, exampleStandard]
  have hpad : exampleStandard.principalAfterDeferral = 160000 := by
    norm_num [SimpleParams.principalAfterDeferral, compound_eq, SimpleParams.principal,
      exampleStandard]
  have hnum : exampleStandard.numberOfPayments = 360 := rfl
  have hpay : exampleStandard.monthlyPayment =
      160000 * (3 / 800 * ((803 : ℚ) / 800) ^ 360) / (((803 : ℚ) / 800) ^ 360 - 1) := by
    rw [SimpleParams.monthlyPayment_of_pos (by rw [hpad]; norm_num) (by rw [hrate]; norm_num),
      hpad, hrate, hnum]
    norm_num
  set X : ℚ := (803 : ℚ) ^ 360 with hX
  set Y : ℚ := (800 : ℚ) ^ 360 with hY
  have hYpos : 0 < Y := pow_pos (by norm_num) _
  have hXY : Y < X := by
    rw [hX, hY]
    exact pow_lt_pow_left₀ (by norm_num) (by norm_num) (by norm_num)
  have hd : 0 < X - Y := sub_pos.2 hXY
  have hpay2 : exampleStandard.monthlyPayment = 600 * X / (X - Y) := by
    rw [hpay, div_pow]
    rw [show ((803 : ℚ) ^ 360) = X from rfl, show ((800 : ℚ) ^ 360) = Y from rfl]
    field_simp
    ring
  have k1 : (162139 : ℚ) * (X - Y) < 120000 * X := by rw [hX, hY]; norm_num
  have k2 : (120000 : ℚ) * X < 162141 * (X - Y) := by rw [hX, hY]; norm_num
  refine ⟨?_, ?_, hrate, hnum, ?_⟩
  · simp [SimpleParams.clamp, exampleStandard, SimpleParams.mk.injEq, max_def, min_def]
    norm_num
  · norm_num [SimpleParams.principal, exampleStandard]
  · have h1 : 600 * X / (X - Y) < 162141 / 200 := by
      rw [div_lt_iff₀ hd]; linarith
    have h2 : (162139 : ℚ) / 200 < 600 * X / (X - Y) := by
      rw [lt_div_iff₀ hd]; linarith
    rw [hpay2, abs_sub_lt_iff]
    constructor <;> [linarith; linarith]

end LoanSim
